import Mathlib

/-!
Verification of the Teams/Einstein relay bot (src/index.js).

The embedding models the session lifecycle manager of the relay:
the session cache (a JS `Map` from conversation id to
`{sessionId, timestamp}`), `getOrCreateSession`, the error
classification of `sendEinsteinMessage`, the turn orchestration of
`botLogic` (token fetch, resolve, dispatch, single evict-and-retry on
`SESSION_EXPIRED`), the periodic cleanup sweep, and the relay loop of
the `/api/messages/stream` handler.

Backend behavior (token endpoint, session-creation endpoint, message
endpoint, stream) is an oracle supplied as input: each backend call's
outcome is a parameter, indexed by how many calls of that kind were
made before it in the turn.  Wall-clock readings (`Date.now()`) are
explicit `Nat` parameters; JS number subtraction is modelled by
subtraction in `Int` so that comparisons agree with JS for all inputs.
-/

namespace TeamsIntegration

/-- One value of the session cache: `{ sessionId, timestamp }` as stored by
`sessionCache.set(conversationId, { sessionId, timestamp: now })`. -/
structure SessionEntry where
  sessionId : String
  timestamp : Nat
deriving DecidableEq, Repr

/-- The session cache `sessionCache = new Map()`: an association list from
conversation id to entry, in insertion order.  A JS `Map` never holds two
bindings for one key; theorems that depend on that carry a `Nodup`
hypothesis on the keys. -/
abbrev Cache := List (String × SessionEntry)

/-- `sessionCache.get(conversationId)`. -/
def cacheGet (cache : Cache) (key : String) : Option SessionEntry :=
  match cache with
  | [] => none
  | (k, e) :: rest => if k = key then some e else cacheGet rest key

/-- `sessionCache.set(conversationId, entry)`: overwrite in place if the key
is bound, otherwise append. -/
def cacheSet (cache : Cache) (key : String) (entry : SessionEntry) : Cache :=
  match cache with
  | [] => [(key, entry)]
  | (k, e) :: rest =>
    if k = key then (key, entry) :: rest else (k, e) :: cacheSet rest key entry

/-- `sessionCache.delete(conversationId)`: remove the binding if present. -/
def cacheDelete (cache : Cache) (key : String) : Cache :=
  match cache with
  | [] => []
  | (k, e) :: rest =>
    if k = key then rest else (k, e) :: cacheDelete rest key

/-- The liveness test of `getOrCreateSession`:
`now - cachedSession.timestamp < SESSION_TIMEOUT` (JS number
subtraction, hence computed in `Int`). -/
def liveAt (timeout now : Nat) (e : SessionEntry) : Prop :=
  (now : Int) - (e.timestamp : Int) < (timeout : Int)

instance (timeout now : Nat) (e : SessionEntry) : Decidable (liveAt timeout now e) := by
  unfold liveAt; infer_instance

/-- The eviction test of the cleanup interval:
`now - session.timestamp > SESSION_TIMEOUT`. -/
def sweepExpired (timeout now : Nat) (e : SessionEntry) : Prop :=
  (now : Int) - (e.timestamp : Int) > (timeout : Int)

instance (timeout now : Nat) (e : SessionEntry) : Decidable (sweepExpired timeout now e) := by
  unfold sweepExpired; infer_instance

/-- The `error.response` object axios attaches to a failed request: a
status code and an optional body string.  A network-level failure has no
response at all (`Option.none` at the use sites). -/
structure AxiosResponse where
  status : Nat
  body : Option String
deriving DecidableEq, Repr

/-- `needle.isPrefixOf hay || ...` scan underlying JS
`String.prototype.includes`: does `hay` contain `needle` as a contiguous
run? -/
def charsInclude (hay needle : List Char) : Bool :=
  match hay with
  | [] => needle.isEmpty
  | c :: rest => needle.isPrefixOf (c :: rest) || charsInclude rest needle

/-- `haystack.includes(needle)` of JS, on the underlying character lists. -/
def stringIncludes (haystack needle : String) : Bool :=
  charsInclude haystack.data needle.data

/-- The error taxonomy of the source, one constructor per distinct
`throw new Error(...)` message: `"Failed to get Salesforce token."`,
`"Failed to create Einstein AI session."`, `"SESSION_EXPIRED"`, and
`"Failed to send message to Einstein AI."`. -/
inductive TurnErr where
  | tokenFailed
  | sessionCreationFailed
  | sessionExpired
  | dispatchFailed
deriving DecidableEq, Repr

/-- Oracle outcome of one backend session-creation request inside
`createEinsteinSession`. -/
inductive CreateOutcome where
  | ok (sessionId : String)
  | fail
deriving DecidableEq, Repr

/-- `createEinsteinSession`: returns `response.data.sessionId on success`;
any axios error is rethrown as `"Failed to create Einstein AI session."`. -/
def createEinsteinSession : CreateOutcome → Except TurnErr String
  | CreateOutcome.ok sid => Except.ok sid
  | CreateOutcome.fail => Except.error TurnErr.sessionCreationFailed

/-- Oracle outcome of one backend message-dispatch request inside
`sendEinsteinMessage`: either the reply text
(`response.data.messages[0].message`) or the axios error's
`error.response` (absent on a network-level failure). -/
inductive DispatchOutcome where
  | success (reply : String)
  | failure (resp : Option AxiosResponse)
deriving DecidableEq, Repr

/-- `sendEinsteinMessage`: on success return the first message's text; on
failure, rethrow `"SESSION_EXPIRED"` when
`error.response?.status === 404 || (error.response?.data &&
error.response?.data.includes("session not found"))` (an empty body is
falsy in JS, hence the emptiness guard), else rethrow the generic
`"Failed to send message to Einstein AI."`. -/
def sendEinsteinMessage : DispatchOutcome → Except TurnErr String
  | DispatchOutcome.success reply => Except.ok reply
  | DispatchOutcome.failure resp =>
    if ((match resp with
         | some r => r.status == 404
         | none => false)
        ||
        (match resp with
         | some r =>
           (match r.body with
            | some d => !(d == "") && stringIncludes d "session not found"
            | none => false)
         | none => false))
    then Except.error TurnErr.sessionExpired
    else Except.error TurnErr.dispatchFailed

/-- Backend-call events a turn can emit, in order. -/
inductive CallEvent where
  | tokenCall
  | createCall
  | dispatchCall (sessionId : String)
deriving DecidableEq, Repr

/-- Recognizer for creation calls in a trace. -/
def isCreateEv : CallEvent → Bool
  | CallEvent.createCall => true
  | _ => false

/-- Recognizer for dispatch calls in a trace. -/
def isDispatchEv : CallEvent → Bool
  | CallEvent.dispatchCall _ => true
  | _ => false

/-- `getOrCreateSession(conversationId, accessToken)`: reuse the cached
session when `cachedSession && (now - cachedSession.timestamp <
SESSION_TIMEOUT)`, otherwise call `createEinsteinSession` and, on
success, `sessionCache.set` the new entry stamped with `now`.  Returns
the result, the cache after the call, and the trace of backend calls
made. -/
def getOrCreateSession (timeout : Nat) (outcome : CreateOutcome)
    (conversationId : String) (now : Nat) (cache : Cache) :
    Except TurnErr String × Cache × List CallEvent :=
  let createNew : Except TurnErr String × Cache × List CallEvent :=
    match createEinsteinSession outcome with
    | Except.ok sessionId =>
      (Except.ok sessionId,
       cacheSet cache conversationId ⟨sessionId, now⟩,
       [CallEvent.createCall])
    | Except.error e => (Except.error e, cache, [CallEvent.createCall])
  match cacheGet cache conversationId with
  | some cachedSession =>
    if (now : Int) - (cachedSession.timestamp : Int) < (timeout : Int) then
      (Except.ok cachedSession.sessionId, cache, [])
    else createNew
  | none => createNew

/-- The periodic cleanup: iterate the cache in order, delete every entry
with `now - session.timestamp > SESSION_TIMEOUT`, and count deletions. -/
def sessionCleanupSweep (timeout now : Nat) : Cache → Cache × Nat
  | [] => ([], 0)
  | (cid, e) :: rest =>
    let (kept, removed) := sessionCleanupSweep timeout now rest
    if (now : Int) - (e.timestamp : Int) > (timeout : Int) then (kept, removed + 1)
    else ((cid, e) :: kept, removed)

/-- The backend oracle for one inbound turn: the token endpoint's result
(`Option.none` when `getSalesforceToken` throws), and the outcomes of the
session-creation and message-dispatch calls, each indexed by the number
of calls of that kind made earlier in the turn. -/
structure TurnEnv where
  tokenResult : Option String
  createResult : Nat → CreateOutcome
  dispatchResult : Nat → DispatchOutcome

/-- What `botLogic` sends back for the turn: the Einstein reply on
success, or the fixed `"❌ Error communicating with Salesforce Einstein
AI."` on any caught error. -/
inductive TurnReply where
  | reply (text : String)
  | genericError
deriving DecidableEq, Repr

/-- The observable outcome of one turn: the reply delivered, the session
cache after the turn, and the ordered trace of backend calls. -/
structure TurnOutcome where
  reply : TurnReply
  cache : Cache
  events : List CallEvent
deriving DecidableEq, Repr

/-- The message branch of `botLogic`: acquire a token, resolve a session,
dispatch; if the dispatch throws `"SESSION_EXPIRED"` and the
`retryWithNewSession` flag is unset (it always is at that point — it is
assigned only inside the handler), delete the cache entry and
resolve-and-dispatch once more; any error escaping that inner handler is
caught by the outer one, which sends the generic error reply.  `now1`
and `now2` are the `Date.now()` readings of the two possible
`getOrCreateSession` invocations. -/
def botLogic (env : TurnEnv) (timeout now1 now2 : Nat)
    (conversationId : String) (cache : Cache) : TurnOutcome :=
  match env.tokenResult with
  | none => ⟨TurnReply.genericError, cache, [CallEvent.tokenCall]⟩
  | some _accessToken =>
    let retryWithNewSession := false
    match getOrCreateSession timeout (env.createResult 0) conversationId now1 cache with
    | (Except.error _, c1, ev1) =>
      ⟨TurnReply.genericError, c1, CallEvent.tokenCall :: ev1⟩
    | (Except.ok sessionId, c1, ev1) =>
      match sendEinsteinMessage (env.dispatchResult 0) with
      | Except.ok responseMessage =>
        ⟨TurnReply.reply responseMessage, c1,
         CallEvent.tokenCall :: ev1 ++ [CallEvent.dispatchCall sessionId]⟩
      | Except.error e =>
        if e = TurnErr.sessionExpired ∧ retryWithNewSession = false then
          let c2 := cacheDelete c1 conversationId
          match getOrCreateSession timeout (env.createResult (ev1.countP isCreateEv))
              conversationId now2 c2 with
          | (Except.error _, c3, ev2) =>
            ⟨TurnReply.genericError, c3,
             CallEvent.tokenCall :: ev1 ++ [CallEvent.dispatchCall sessionId] ++ ev2⟩
          | (Except.ok sessionId2, c3, ev2) =>
            match sendEinsteinMessage (env.dispatchResult 1) with
            | Except.ok responseMessage =>
              ⟨TurnReply.reply responseMessage, c3,
               CallEvent.tokenCall :: ev1 ++ [CallEvent.dispatchCall sessionId]
                 ++ ev2 ++ [CallEvent.dispatchCall sessionId2]⟩
            | Except.error _ =>
              ⟨TurnReply.genericError, c3,
               CallEvent.tokenCall :: ev1 ++ [CallEvent.dispatchCall sessionId]
                 ++ ev2 ++ [CallEvent.dispatchCall sessionId2]⟩
        else
          ⟨TurnReply.genericError, c1,
           CallEvent.tokenCall :: ev1 ++ [CallEvent.dispatchCall sessionId]⟩

/-- `req.query.conversationId || 'default-conversation'` of the streaming
handler: an absent parameter — and, by JS truthiness, an empty one —
falls back to the fixed key. -/
def effectiveConversationId (queryParam : Option String) : String :=
  match queryParam with
  | none => "default-conversation"
  | some s => if s = "" then "default-conversation" else s

/-- Server-sent events the streaming handler writes to the response. -/
inductive SseEvent where
  | dataEv (chunk : String)
  | doneEv
  | errorEv (detail : String)
deriving DecidableEq, Repr

/-- The outbound response state of the streaming handler: the events
written so far and whether `res.end()` has been called. -/
structure ResState where
  events : List SseEvent
  closed : Bool
deriving DecidableEq, Repr

/-- The stream-event listeners a handler registers on the backend
response stream (`response.data.on(...)`).  A `none` slot means no
listener was attached for that stream event. -/
structure StreamListeners where
  onData : Option (String → ResState → ResState)
  onEnd : Option (ResState → ResState)
  onErr : Option (String → ResState → ResState)

/-- The listeners the `/api/messages/stream` handler registers: `data`
writes `data: <chunk>\n\n`; `end` writes `event: done\n\n` and ends the
response.  No listener is attached for the stream's `error` event. -/
def streamHandlerListeners : StreamListeners where
  onData := some fun chunk st =>
    { st with events := st.events ++ [SseEvent.dataEv chunk] }
  onEnd := some fun st =>
    { events := st.events ++ [SseEvent.doneEv], closed := true }
  onErr := none

/-- How a backend stream terminates after its chunks: a normal `end`, or
a stream `error` carrying a failure detail. -/
inductive StreamTerminal where
  | ended
  | failed (detail : String)
deriving DecidableEq, Repr

/-- Node stream semantics for a consumer holding listeners: each chunk
fires the `data` listener, then the terminal fires the `end` or `error`
listener; a missing listener leaves the response state untouched. -/
def runStream (ls : StreamListeners) (chunks : List String)
    (terminal : StreamTerminal) (st : ResState) : ResState :=
  let afterChunks := chunks.foldl
    (fun s c => match ls.onData with
                | some f => f c s
                | none => s) st
  match terminal with
  | StreamTerminal.ended =>
    match ls.onEnd with
    | some f => f afterChunks
    | none => afterChunks
  | StreamTerminal.failed d =>
    match ls.onErr with
    | some f => f d afterChunks
    | none => afterChunks

/-- The backend side of one streaming request: either some call inside
the `try` block throws before the backend stream is obtained (token,
session, or the axios stream request itself), or a stream is obtained
and delivers its chunks followed by a terminal event. -/
inductive BackendStreamOutcome where
  | preFailure (detail : String)
  | streamed (chunks : List String) (terminal : StreamTerminal)
deriving DecidableEq, Repr

/-- The response the `/api/messages/stream` handler produces: the `catch`
block writes `event: error` with the detail and ends the response; a
successfully obtained stream is consumed under the handler's
listeners starting from an empty, open response. -/
def streamHandlerOutput : BackendStreamOutcome → ResState
  | BackendStreamOutcome.preFailure detail =>
    { events := [SseEvent.errorEv detail], closed := true }
  | BackendStreamOutcome.streamed chunks terminal =>
    runStream streamHandlerListeners chunks terminal { events := [], closed := false }

/-! ### Helper lemmas on the cache operations -/

theorem cacheGet_cacheSet_self (cache : Cache) (key : String) (entry : SessionEntry) :
    cacheGet (cacheSet cache key entry) key = some entry := by
  induction cache with
  | nil => simp [cacheGet, cacheSet]
  | cons p rest ih =>
    obtain ⟨k, e⟩ := p
    by_cases h : k = key <;> simp [cacheGet, cacheSet, h, ih]

theorem cacheGet_eq_some_mem (cache : Cache) (key : String) (e : SessionEntry)
    (h : cacheGet cache key = some e) : (key, e) ∈ cache := by
  induction cache with
  | nil => simp [cacheGet] at h
  | cons p rest ih =>
    obtain ⟨k, e2⟩ := p
    by_cases hk : k = key
    · subst hk
      simp [cacheGet] at h
      simp [h]
    · simp [cacheGet, hk] at h
      exact List.mem_cons_of_mem _ (ih h)

theorem cacheGet_eq_none_of_not_mem_keys (cache : Cache) (key : String)
    (h : key ∉ cache.map Prod.fst) : cacheGet cache key = none := by
  induction cache with
  | nil => rfl
  | cons p rest ih =>
    obtain ⟨k, e⟩ := p
    simp only [List.map_cons, List.mem_cons, not_or] at h
    have hne : ¬ (k = key) := fun hc => h.1 hc.symm
    simp only [cacheGet, if_neg hne]
    exact ih h.2

theorem cacheGet_cacheDelete_self (cache : Cache) (key : String)
    (h : (cache.map Prod.fst).Nodup) :
    cacheGet (cacheDelete cache key) key = none := by
  induction cache with
  | nil => simp [cacheGet, cacheDelete]
  | cons p rest ih =>
    obtain ⟨k, e⟩ := p
    simp only [List.map_cons, List.nodup_cons] at h
    by_cases hk : k = key
    · subst hk
      simp only [cacheDelete, if_pos rfl]
      exact cacheGet_eq_none_of_not_mem_keys rest k h.1
    · simp only [cacheDelete, if_neg hk, cacheGet, if_neg hk]
      exact ih h.2

theorem cacheSet_mem_keys (cache : Cache) (key : String) (entry : SessionEntry)
    (k : String) :
    k ∈ (cacheSet cache key entry).map Prod.fst ↔
      k ∈ cache.map Prod.fst ∨ k = key := by
  induction cache with
  | nil => simp [cacheSet, eq_comm]
  | cons p rest ih =>
    obtain ⟨k2, e2⟩ := p
    by_cases hk : k2 = key
    · subst hk
      simp [cacheSet]
      tauto
    · simp [cacheSet, if_neg hk, ih]
      tauto

theorem cacheSet_keys_nodup (cache : Cache) (key : String) (entry : SessionEntry)
    (h : (cache.map Prod.fst).Nodup) :
    ((cacheSet cache key entry).map Prod.fst).Nodup := by
  induction cache with
  | nil => simp [cacheSet]
  | cons p rest ih =>
    obtain ⟨k, e⟩ := p
    simp only [List.map_cons, List.nodup_cons] at h
    by_cases hk : k = key
    · subst hk
      simpa [cacheSet] using h
    · simp only [cacheSet, if_neg hk, List.map_cons, List.nodup_cons]
      constructor
      · intro hm
        rcases (cacheSet_mem_keys rest key entry k).mp hm with h1 | h1
        · exact h.1 h1
        · exact hk h1
      · exact ih h.2

/-! ### Substring search is infix containment -/

theorem charsInclude_iff (needle hay : List Char) :
    charsInclude hay needle = true ↔ needle <:+: hay := by
  induction hay with
  | nil =>
    simp [charsInclude, List.isEmpty_iff, List.infix_nil]
  | cons c rest ih =>
    simp only [charsInclude, Bool.or_eq_true, List.isPrefixOf_iff_prefix, ih,
      List.infix_cons_iff]

theorem stringIncludes_iff (haystack needle : String) :
    stringIncludes haystack needle = true ↔ needle.data <:+: haystack.data :=
  charsInclude_iff needle.data haystack.data

/-! ### Characterizing `getOrCreateSession` -/

theorem getOrCreateSession_hit (timeout : Nat) (outcome : CreateOutcome)
    (cid : String) (now : Nat) (cache : Cache) (e : SessionEntry)
    (hget : cacheGet cache cid = some e) (hlive : liveAt timeout now e) :
    getOrCreateSession timeout outcome cid now cache =
      (Except.ok e.sessionId, cache, []) := by
  unfold getOrCreateSession
  rw [hget]
  have h : (now : Int) - (e.timestamp : Int) < (timeout : Int) := hlive
  simp only [if_pos h]

theorem getOrCreateSession_miss_ok (timeout : Nat) (sid : String)
    (cid : String) (now : Nat) (cache : Cache)
    (hmiss : ∀ e, cacheGet cache cid = some e → ¬ liveAt timeout now e) :
    getOrCreateSession timeout (CreateOutcome.ok sid) cid now cache =
      (Except.ok sid, cacheSet cache cid ⟨sid, now⟩, [CallEvent.createCall]) := by
  unfold getOrCreateSession
  cases hget : cacheGet cache cid with
  | none => simp [createEinsteinSession]
  | some e =>
    have := hmiss e hget
    simp only [liveAt] at this
    simp [if_neg this, createEinsteinSession]

theorem getOrCreateSession_miss_fail (timeout : Nat)
    (cid : String) (now : Nat) (cache : Cache)
    (hmiss : ∀ e, cacheGet cache cid = some e → ¬ liveAt timeout now e) :
    getOrCreateSession timeout CreateOutcome.fail cid now cache =
      (Except.error TurnErr.sessionCreationFailed, cache, [CallEvent.createCall]) := by
  unfold getOrCreateSession
  cases hget : cacheGet cache cid with
  | none => simp [createEinsteinSession]
  | some e =>
    have := hmiss e hget
    simp only [liveAt] at this
    simp [if_neg this, createEinsteinSession]

/-! ### Characterizing the sweep -/

theorem sessionCleanupSweep_eq_filter (timeout now : Nat) (cache : Cache) :
    (sessionCleanupSweep timeout now cache).1 =
      cache.filter (fun p => decide (¬ sweepExpired timeout now p.2)) ∧
    (sessionCleanupSweep timeout now cache).2 =
      (cache.filter (fun p => decide (sweepExpired timeout now p.2))).length := by
  induction cache with
  | nil => simp [sessionCleanupSweep]
  | cons p rest ih =>
    obtain ⟨cid, e⟩ := p
    by_cases h : (now : Int) - (e.timestamp : Int) > (timeout : Int)
    · have hx : sweepExpired timeout now e := h
      simp only [sessionCleanupSweep, if_pos h, List.filter_cons]
      simp [hx, ih.1, ih.2]
    · have hx : ¬ sweepExpired timeout now e := h
      simp only [sessionCleanupSweep, if_neg h, List.filter_cons]
      simp [hx, ih.1, ih.2]

/-! ### The stream relay loop -/

theorem runStream_dataLoop (chunks : List String) (evs : List SseEvent) (cl : Bool) :
    chunks.foldl
      (fun s c => match streamHandlerListeners.onData with
                  | some f => f c s
                  | none => s)
      ⟨evs, cl⟩ = ⟨evs ++ chunks.map SseEvent.dataEv, cl⟩ := by
  induction chunks generalizing evs with
  | nil => simp
  | cons c rest ih =>
    rw [List.foldl_cons]
    have hstep : (match streamHandlerListeners.onData with
                  | some f => f c (⟨evs, cl⟩ : ResState)
                  | none => (⟨evs, cl⟩ : ResState)) =
        (⟨evs ++ [SseEvent.dataEv c], cl⟩ : ResState) := rfl
    rw [hstep, ih]
    simp

/-- The condition of the claims C5: the backend reported a not-found
status code, or a response body signaling an absent session. -/
def SessionNotFoundResp : Option AxiosResponse → Prop
  | none => False
  | some r =>
    r.status = 404 ∨
      ∃ d, r.body = some d ∧ ("session not found").data <:+: d.data

theorem sessionNotFoundCond_iff (resp : Option AxiosResponse) :
    ((match resp with
      | some r => r.status == 404
      | none => false)
     ||
     (match resp with
      | some r =>
        (match r.body with
         | some d => !(d == "") && stringIncludes d "session not found"
         | none => false)
      | none => false)) = true ↔ SessionNotFoundResp resp := by
  cases resp with
  | none => simp [SessionNotFoundResp]
  | some r =>
    cases hb : r.body with
    | none => simp [SessionNotFoundResp, hb]
    | some d =>
      simp only [SessionNotFoundResp, hb, Option.some.injEq, Bool.or_eq_true,
        beq_iff_eq, Bool.and_eq_true, Bool.not_eq_true', beq_eq_false_iff_ne,
        ne_eq, stringIncludes_iff, exists_eq_left']
      refine or_congr Iff.rfl ?_
      constructor
      · exact And.right
      · intro hinf
        refine ⟨?_, hinf⟩
        intro hde
        subst hde
        have hne : ("session not found").data = [] := List.infix_nil.mp hinf
        exact absurd hne (by decide)

/-! ### The claims -/

/-- C3: for every conversation id, session resolution returns the cached
handle with no creation call exactly when an entry is present and
`now - lastTouch < timeout`; otherwise it makes one creation call,
stores the new handle stamped with the current time, and returns it. -/
theorem getOrCreateSession_resolution (timeout now : Nat) (cid sidNew : String)
    (outcome : CreateOutcome) (cache : Cache) :
    (∀ e, cacheGet cache cid = some e → liveAt timeout now e →
      getOrCreateSession timeout outcome cid now cache =
        (Except.ok e.sessionId, cache, [])) ∧
    ((∀ e, cacheGet cache cid = some e → ¬ liveAt timeout now e) →
      getOrCreateSession timeout (CreateOutcome.ok sidNew) cid now cache =
        (Except.ok sidNew, cacheSet cache cid ⟨sidNew, now⟩,
         [CallEvent.createCall])) ∧
    ((getOrCreateSession timeout outcome cid now cache).2.2 = [] ↔
      ∃ e, cacheGet cache cid = some e ∧ liveAt timeout now e) := by
  refine ⟨fun e hget hlive => getOrCreateSession_hit _ _ _ _ _ _ hget hlive,
          fun hmiss => getOrCreateSession_miss_ok _ _ _ _ _ hmiss, ?_⟩
  constructor
  · intro hnil
    by_cases hex : ∃ e, cacheGet cache cid = some e ∧ liveAt timeout now e
    · exact hex
    · exfalso
      push_neg at hex
      cases outcome with
      | ok s =>
        rw [getOrCreateSession_miss_ok timeout s cid now cache hex] at hnil
        simp at hnil
      | fail =>
        rw [getOrCreateSession_miss_fail timeout cid now cache hex] at hnil
        simp at hnil
  · rintro ⟨e, hget, hlive⟩
    rw [getOrCreateSession_hit timeout outcome cid now cache e hget hlive]

/-- Witness for C3: a one-entry cache gives a hit at age 1 under
timeout 5, and forces a creation call at age 6. -/
theorem getOrCreateSession_resolution_witness :
    getOrCreateSession 5 CreateOutcome.fail "c" 1 [("c", ⟨"s", 0⟩)] =
      (Except.ok "s", [("c", ⟨"s", 0⟩)], []) ∧
    getOrCreateSession 5 (CreateOutcome.ok "s2") "c" 6 [("c", ⟨"s", 0⟩)] =
      (Except.ok "s2", cacheSet [("c", ⟨"s", 0⟩)] "c" ⟨"s2", 6⟩,
       [CallEvent.createCall]) := by
  constructor
  · exact (getOrCreateSession_resolution 5 1 "c" "s2" CreateOutcome.fail
      [("c", ⟨"s", 0⟩)]).1 ⟨"s", 0⟩ rfl (by decide)
  · refine (getOrCreateSession_resolution 5 6 "c" "s2" (CreateOutcome.ok "s2")
      [("c", ⟨"s", 0⟩)]).2.1 ?_
    intro e he
    simp [cacheGet] at he
    subst he
    decide

/-- C4: the sweep removes exactly the entries with
`now - lastTouch > timeout`, keeps every other entry unchanged (it
returns a sublist of the cache, and membership is preserved for
non-expired entries), and counts the removed entries. -/
theorem sessionCleanupSweep_removes_exactly (timeout now : Nat) (cache : Cache) :
    (sessionCleanupSweep timeout now cache).1 =
        cache.filter (fun p => decide (¬ sweepExpired timeout now p.2)) ∧
    (sessionCleanupSweep timeout now cache).1.Sublist cache ∧
    (∀ cid e, (cid, e) ∈ (sessionCleanupSweep timeout now cache).1 ↔
        (cid, e) ∈ cache ∧ ¬ sweepExpired timeout now e) ∧
    (sessionCleanupSweep timeout now cache).2 =
        (cache.filter (fun p => decide (sweepExpired timeout now p.2))).length := by
  obtain ⟨h1, h2⟩ := sessionCleanupSweep_eq_filter timeout now cache
  refine ⟨h1, ?_, ?_, h2⟩
  · rw [h1]
    exact List.filter_sublist cache
  · intro cid e
    rw [h1, List.mem_filter]
    simp

/-- C5: a failed dispatch throws `SESSION_EXPIRED` exactly when the
backend failure carries a 404 status or a body containing
`"session not found"`; every other failure throws the generic dispatch
error. -/
theorem sendEinsteinMessage_classification (resp : Option AxiosResponse) :
    (sendEinsteinMessage (DispatchOutcome.failure resp) =
        Except.error TurnErr.sessionExpired ↔ SessionNotFoundResp resp) ∧
    (sendEinsteinMessage (DispatchOutcome.failure resp) =
        Except.error TurnErr.dispatchFailed ↔ ¬ SessionNotFoundResp resp) := by
  simp only [sendEinsteinMessage]
  by_cases h : SessionNotFoundResp resp
  · rw [if_pos ((sessionNotFoundCond_iff resp).mpr h)]
    simp [h]
  · rw [if_neg (fun hc => h ((sessionNotFoundCond_iff resp).mp hc))]
    simp [h]

/-- C6: when the session-creation call fails, resolution propagates the
creation failure and the cache is unchanged — nothing is inserted or
overwritten for that conversation id. -/
theorem creation_failure_leaves_cache (timeout now : Nat) (cid : String)
    (cache : Cache)
    (hmiss : ∀ e, cacheGet cache cid = some e → ¬ liveAt timeout now e) :
    getOrCreateSession timeout CreateOutcome.fail cid now cache =
      (Except.error TurnErr.sessionCreationFailed, cache,
       [CallEvent.createCall]) :=
  getOrCreateSession_miss_fail timeout cid now cache hmiss

/-- Witness for C6: creation failure on an empty cache leaves it empty. -/
theorem creation_failure_leaves_cache_witness :
    getOrCreateSession 5 CreateOutcome.fail "c" 0 [] =
      (Except.error TurnErr.sessionCreationFailed, [],
       [CallEvent.createCall]) :=
  creation_failure_leaves_cache 5 0 "c" []
    (fun e he => by simp [cacheGet] at he)

/-- C9: when an entry's age equals the timeout exactly, the lookup's
strict `<` fails — so resolution makes a creation call — while the
sweep's strict `>` also fails — so the sweep keeps the entry; the two
expiry tests disagree at the boundary instant. -/
theorem boundary_expiry_disagreement (timeout now : Nat) (cid sidNew : String)
    (e : SessionEntry) (cache : Cache)
    (hget : cacheGet cache cid = some e)
    (hb : (now : Int) - (e.timestamp : Int) = (timeout : Int)) :
    getOrCreateSession timeout (CreateOutcome.ok sidNew) cid now cache =
      (Except.ok sidNew, cacheSet cache cid ⟨sidNew, now⟩,
       [CallEvent.createCall]) ∧
    (cid, e) ∈ (sessionCleanupSweep timeout now cache).1 := by
  constructor
  · refine getOrCreateSession_miss_ok timeout sidNew cid now cache ?_
    intro e2 hget2 hlive
    rw [hget] at hget2
    cases hget2
    have hlt : (now : Int) - (e.timestamp : Int) < (timeout : Int) := hlive
    rw [hb] at hlt
    exact absurd hlt (lt_irrefl _)
  · have hmem := cacheGet_eq_some_mem cache cid e hget
    have hns : ¬ sweepExpired timeout now e := by
      simp only [sweepExpired, hb]
      exact lt_irrefl _
    exact ((sessionCleanupSweep_eq_filter timeout now cache).1 ▸
      List.mem_filter.mpr ⟨hmem, by simpa using hns⟩)

/-- Witness for C9: a session created at time 0 under timeout 5, seen at
time 5, is recreated by the lookup but kept by the sweep. -/
theorem boundary_expiry_disagreement_witness :
    getOrCreateSession 5 (CreateOutcome.ok "s2") "c" 5 [("c", ⟨"s", 0⟩)] =
      (Except.ok "s2", cacheSet [("c", ⟨"s", 0⟩)] "c" ⟨"s2", 5⟩,
       [CallEvent.createCall]) ∧
    ("c", (⟨"s", 0⟩ : SessionEntry)) ∈
      (sessionCleanupSweep 5 5 [("c", ⟨"s", 0⟩)]).1 :=
  boundary_expiry_disagreement 5 5 "c" "s2" ⟨"s", 0⟩ [("c", ⟨"s", 0⟩)]
    rfl (by decide)

/-- C10: a streaming request without a `conversationId` parameter uses
the fixed key `default-conversation`; two such requests therefore share
one cache entry — after the first stored its session, a second within
the timeout reuses the same handle with no creation call, whatever the
backend would answer. -/
theorem default_conversation_shared_entry (timeout now1 now2 : Nat)
    (sid : String) (cache : Cache) (outcome : CreateOutcome)
    (hfresh : (now2 : Int) - (now1 : Int) < (timeout : Int)) :
    effectiveConversationId none = "default-conversation" ∧
    getOrCreateSession timeout outcome (effectiveConversationId none) now2
        (cacheSet cache (effectiveConversationId none) ⟨sid, now1⟩) =
      (Except.ok sid,
       cacheSet cache (effectiveConversationId none) ⟨sid, now1⟩, []) := by
  refine ⟨rfl, ?_⟩
  exact getOrCreateSession_hit timeout outcome _ now2 _ ⟨sid, now1⟩
    (cacheGet_cacheSet_self cache _ _) hfresh

/-- Witness for C10: with timeout 5, a second parameterless request at
time 3 reuses the session the first stored at time 1. -/
theorem default_conversation_shared_entry_witness :
    effectiveConversationId none = "default-conversation" ∧
    getOrCreateSession 5 CreateOutcome.fail (effectiveConversationId none) 3
        (cacheSet [] (effectiveConversationId none) ⟨"s", 1⟩) =
      (Except.ok "s", cacheSet [] (effectiveConversationId none) ⟨"s", 1⟩, []) :=
  default_conversation_shared_entry 5 1 3 "s" [] CreateOutcome.fail (by decide)

/-- C7: when token acquisition fails, the turn ends with the generic
error reply, the cache is untouched, and no session-creation or
dispatch call is made. -/
theorem token_failure_no_backend_calls (env : TurnEnv) (timeout now1 now2 : Nat)
    (cid : String) (cache : Cache) (htok : env.tokenResult = none) :
    botLogic env timeout now1 now2 cid cache =
      ⟨TurnReply.genericError, cache, [CallEvent.tokenCall]⟩ ∧
    (botLogic env timeout now1 now2 cid cache).events.countP isCreateEv = 0 ∧
    (botLogic env timeout now1 now2 cid cache).events.countP isDispatchEv = 0 := by
  have hrun : botLogic env timeout now1 now2 cid cache =
      ⟨TurnReply.genericError, cache, [CallEvent.tokenCall]⟩ := by
    unfold botLogic
    rw [htok]
  refine ⟨hrun, ?_, ?_⟩ <;> rw [hrun] <;> rfl

/-- Witness for C7: a concrete environment whose token call fails. -/
theorem token_failure_no_backend_calls_witness :
    botLogic ⟨none, fun _ => CreateOutcome.fail,
        fun _ => DispatchOutcome.failure none⟩ 5 0 0 "c" [] =
      ⟨TurnReply.genericError, [], [CallEvent.tokenCall]⟩ :=
  (token_failure_no_backend_calls
    ⟨none, fun _ => CreateOutcome.fail, fun _ => DispatchOutcome.failure none⟩
    5 0 0 "c" [] rfl).1

/-- C8 (amended): a backend stream of N chunks ending normally yields the
N `data:` events in order followed by one `event: done` and the response
is closed; a failure before the stream is obtained yields one
`event: error` and the response is closed; but a mid-stream failure
fires the stream's `error` event, for which the handler registered no
listener, so the caller sees only the chunks relayed so far — no
`event: error` — and the response is never closed. -/
theorem stream_relay_behavior (chunks : List String) (detail : String) :
    streamHandlerOutput (BackendStreamOutcome.streamed chunks StreamTerminal.ended) =
      ⟨chunks.map SseEvent.dataEv ++ [SseEvent.doneEv], true⟩ ∧
    streamHandlerOutput (BackendStreamOutcome.preFailure detail) =
      ⟨[SseEvent.errorEv detail], true⟩ ∧
    streamHandlerOutput (BackendStreamOutcome.streamed chunks (StreamTerminal.failed detail)) =
      ⟨chunks.map SseEvent.dataEv, false⟩ := by
  refine ⟨?_, rfl, ?_⟩
  · show runStream streamHandlerListeners chunks StreamTerminal.ended ⟨[], false⟩ = _
    unfold runStream
    rw [runStream_dataLoop chunks [] false]
    rfl
  · show runStream streamHandlerListeners chunks (StreamTerminal.failed detail) ⟨[], false⟩ = _
    unfold runStream
    rw [runStream_dataLoop chunks [] false]
    rfl

/-- Counterexample to C8 as stated: a stream that delivers one chunk and
then fails produces no `event: error` — the response holds only the
relayed chunk — and the response is not closed. -/
theorem stream_midfailure_counterexample :
    (streamHandlerOutput (BackendStreamOutcome.streamed ["chunk"]
        (StreamTerminal.failed "backend failure"))).events =
      [SseEvent.dataEv "chunk"] ∧
    (streamHandlerOutput (BackendStreamOutcome.streamed ["chunk"]
        (StreamTerminal.failed "backend failure"))).closed = false := by
  constructor <;> rfl

/-- C2: with a live-but-stale cached session, a first dispatch failing
with the not-found-session condition and a second succeeding, the turn
deletes the stale entry, stores the one newly created session, makes
exactly one creation call and exactly two dispatch calls, and delivers
the second attempt's reply. -/
theorem stale_session_recovery (env : TurnEnv) (timeout now1 now2 : Nat)
    (cid tok : String) (cache : Cache) (e : SessionEntry) (sid2 reply2 : String)
    (htok : env.tokenResult = some tok)
    (hnodup : (cache.map Prod.fst).Nodup)
    (hget : cacheGet cache cid = some e)
    (hlive : liveAt timeout now1 e)
    (hd0 : sendEinsteinMessage (env.dispatchResult 0) =
      Except.error TurnErr.sessionExpired)
    (hc0 : env.createResult 0 = CreateOutcome.ok sid2)
    (hd1 : env.dispatchResult 1 = DispatchOutcome.success reply2) :
    botLogic env timeout now1 now2 cid cache =
      ⟨TurnReply.reply reply2,
       cacheSet (cacheDelete cache cid) cid ⟨sid2, now2⟩,
       [CallEvent.tokenCall, CallEvent.dispatchCall e.sessionId,
        CallEvent.createCall, CallEvent.dispatchCall sid2]⟩ ∧
    (botLogic env timeout now1 now2 cid cache).events.countP isCreateEv = 1 ∧
    (botLogic env timeout now1 now2 cid cache).events.countP isDispatchEv = 2 := by
  have h1 : getOrCreateSession timeout (CreateOutcome.ok sid2) cid now1 cache =
      (Except.ok e.sessionId, cache, []) :=
    getOrCreateSession_hit timeout (CreateOutcome.ok sid2) cid now1 cache e hget hlive
  have hdel : cacheGet (cacheDelete cache cid) cid = none :=
    cacheGet_cacheDelete_self cache cid hnodup
  have hmiss : ∀ e2, cacheGet (cacheDelete cache cid) cid = some e2 →
      ¬ liveAt timeout now2 e2 := by
    intro e2 he2
    rw [hdel] at he2
    exact absurd he2 (by simp)
  have h2 : getOrCreateSession timeout (CreateOutcome.ok sid2) cid now2
      (cacheDelete cache cid) =
      (Except.ok sid2, cacheSet (cacheDelete cache cid) cid ⟨sid2, now2⟩,
       [CallEvent.createCall]) :=
    getOrCreateSession_miss_ok timeout sid2 cid now2 (cacheDelete cache cid) hmiss
  have hsend1 : sendEinsteinMessage (env.dispatchResult 1) = Except.ok reply2 := by
    rw [hd1]
    rfl
  have hmain : botLogic env timeout now1 now2 cid cache =
      ⟨TurnReply.reply reply2,
       cacheSet (cacheDelete cache cid) cid ⟨sid2, now2⟩,
       [CallEvent.tokenCall, CallEvent.dispatchCall e.sessionId,
        CallEvent.createCall, CallEvent.dispatchCall sid2]⟩ := by
    simp [botLogic, htok, hc0, h1, hd0, h2, hsend1]
  refine ⟨hmain, ?_, ?_⟩ <;> rw [hmain] <;> rfl

/-- Witness for C2: a concrete turn with a stale cached session, a 404
on the first dispatch, and a successful retry. -/
theorem stale_session_recovery_witness :
    botLogic
      ⟨some "tok", fun _ => CreateOutcome.ok "s2",
       fun n => if n = 0 then DispatchOutcome.failure (some ⟨404, none⟩)
                else DispatchOutcome.success "hello"⟩
      5 1 2 "c" [("c", ⟨"s1", 0⟩)] =
      ⟨TurnReply.reply "hello",
       cacheSet (cacheDelete [("c", ⟨"s1", 0⟩)] "c") "c" ⟨"s2", 2⟩,
       [CallEvent.tokenCall, CallEvent.dispatchCall "s1",
        CallEvent.createCall, CallEvent.dispatchCall "s2"]⟩ :=
  (stale_session_recovery
    ⟨some "tok", fun _ => CreateOutcome.ok "s2",
     fun n => if n = 0 then DispatchOutcome.failure (some ⟨404, none⟩)
              else DispatchOutcome.success "hello"⟩
    5 1 2 "c" "tok" [("c", ⟨"s1", 0⟩)] ⟨"s1", 0⟩ "s2" "hello"
    rfl (by simp) rfl (by decide) rfl rfl rfl).1

/-- C1: when the first dispatch and the retry dispatch both fail with
`SESSION_EXPIRED`, the turn performs exactly one evict-and-recreate
retry — two dispatch calls in total — and ends with the generic error
reply; it never dispatches a third time. -/
theorem double_session_expired_terminal (env : TurnEnv) (timeout now1 now2 : Nat)
    (cid tok : String) (cache : Cache)
    (htok : env.tokenResult = some tok)
    (hnodup : (cache.map Prod.fst).Nodup)
    (hc : ∀ n, ∃ s, env.createResult n = CreateOutcome.ok s)
    (hd0 : sendEinsteinMessage (env.dispatchResult 0) =
      Except.error TurnErr.sessionExpired)
    (hd1 : sendEinsteinMessage (env.dispatchResult 1) =
      Except.error TurnErr.sessionExpired) :
    (botLogic env timeout now1 now2 cid cache).reply = TurnReply.genericError ∧
    (botLogic env timeout now1 now2 cid cache).events.countP isDispatchEv = 2 := by
  by_cases hex : ∃ e, cacheGet cache cid = some e ∧ liveAt timeout now1 e
  · obtain ⟨e, hget, hlive⟩ := hex
    obtain ⟨s1, hc0⟩ := hc 0
    have h1 : getOrCreateSession timeout (CreateOutcome.ok s1) cid now1 cache =
        (Except.ok e.sessionId, cache, []) :=
      getOrCreateSession_hit timeout (CreateOutcome.ok s1) cid now1 cache e hget hlive
    have hdel : cacheGet (cacheDelete cache cid) cid = none :=
      cacheGet_cacheDelete_self cache cid hnodup
    have hmiss : ∀ e2, cacheGet (cacheDelete cache cid) cid = some e2 →
        ¬ liveAt timeout now2 e2 := by
      intro e2 he2
      rw [hdel] at he2
      exact absurd he2 (by simp)
    have h2 : getOrCreateSession timeout (CreateOutcome.ok s1) cid now2
        (cacheDelete cache cid) =
        (Except.ok s1, cacheSet (cacheDelete cache cid) cid ⟨s1, now2⟩,
         [CallEvent.createCall]) :=
      getOrCreateSession_miss_ok timeout s1 cid now2 (cacheDelete cache cid) hmiss
    have hmain : botLogic env timeout now1 now2 cid cache =
        ⟨TurnReply.genericError,
         cacheSet (cacheDelete cache cid) cid ⟨s1, now2⟩,
         [CallEvent.tokenCall, CallEvent.dispatchCall e.sessionId,
          CallEvent.createCall, CallEvent.dispatchCall s1]⟩ := by
      simp [botLogic, htok, h1, hd0, hc0, h2, hd1]
    rw [hmain]
    exact ⟨rfl, rfl⟩
  · push_neg at hex
    obtain ⟨s0, hc0⟩ := hc 0
    obtain ⟨s1, hc1⟩ := hc 1
    have h1 : getOrCreateSession timeout (CreateOutcome.ok s0) cid now1 cache =
        (Except.ok s0, cacheSet cache cid ⟨s0, now1⟩, [CallEvent.createCall]) :=
      getOrCreateSession_miss_ok timeout s0 cid now1 cache hex
    have hnodup1 : ((cacheSet cache cid ⟨s0, now1⟩).map Prod.fst).Nodup :=
      cacheSet_keys_nodup cache cid _ hnodup
    have hdel : cacheGet (cacheDelete (cacheSet cache cid ⟨s0, now1⟩) cid) cid = none :=
      cacheGet_cacheDelete_self (cacheSet cache cid ⟨s0, now1⟩) cid hnodup1
    have hmiss2 : ∀ e2,
        cacheGet (cacheDelete (cacheSet cache cid ⟨s0, now1⟩) cid) cid = some e2 →
        ¬ liveAt timeout now2 e2 := by
      intro e2 he2
      rw [hdel] at he2
      exact absurd he2 (by simp)
    have h2 : getOrCreateSession timeout (CreateOutcome.ok s1) cid now2
        (cacheDelete (cacheSet cache cid ⟨s0, now1⟩) cid) =
        (Except.ok s1,
         cacheSet (cacheDelete (cacheSet cache cid ⟨s0, now1⟩) cid) cid ⟨s1, now2⟩,
         [CallEvent.createCall]) :=
      getOrCreateSession_miss_ok timeout s1 cid now2 _ hmiss2
    have hmain : botLogic env timeout now1 now2 cid cache =
        ⟨TurnReply.genericError,
         cacheSet (cacheDelete (cacheSet cache cid ⟨s0, now1⟩) cid) cid ⟨s1, now2⟩,
         [CallEvent.tokenCall, CallEvent.createCall, CallEvent.dispatchCall s0,
          CallEvent.createCall, CallEvent.dispatchCall s1]⟩ := by
      simp [botLogic, htok, hc0, h1, hd0, isCreateEv, hc1, h2, hd1]
    rw [hmain]
    exact ⟨rfl, rfl⟩

/-- Witness for C1: a concrete turn whose two dispatch attempts both
report the session missing; the turn makes exactly two dispatch calls
and ends with the generic error reply. -/
theorem double_session_expired_terminal_witness :
    (botLogic
      ⟨some "tok", fun _ => CreateOutcome.ok "s",
       fun _ => DispatchOutcome.failure (some ⟨404, none⟩)⟩
      5 0 0 "c" []).reply = TurnReply.genericError ∧
    (botLogic
      ⟨some "tok", fun _ => CreateOutcome.ok "s",
       fun _ => DispatchOutcome.failure (some ⟨404, none⟩)⟩
      5 0 0 "c" []).events.countP isDispatchEv = 2 :=
  double_session_expired_terminal
    ⟨some "tok", fun _ => CreateOutcome.ok "s",
     fun _ => DispatchOutcome.failure (some ⟨404, none⟩)⟩
    5 0 0 "c" "tok" [] rfl (by simp) (fun n => ⟨"s", rfl⟩)
    rfl rfl

end TeamsIntegration
